import Mathlib

/-!
Verification of the AI-Ops Sentry repository against its natural-language
specification.  The dashboard component (`services/dashboard/my-app/dashboard.tsx`
and the integrated-dashboard wrapper) is embedded directly from the TypeScript
source.  The auto-remediation core (dispatcher, ledger, executors, policy
engine, notifier) is present in the repository only as documentation and
interface descriptions, so those components are modelled from the spec, as
marked on each definition.
-/

namespace AiOps

/- ## Dashboard data model, from dashboard.tsx -/

namespace Dashboard

/-- The `Anomaly` interface of dashboard.tsx (lines 41-49).  The TypeScript
severity and status fields are string-literal unions; they are embedded as
strings. -/
structure Anomaly where
  id : String
  service : String
  detectedAt : String
  severity : String
  summary : String
  status : String
  rootCause : Option String
deriving DecidableEq, Repr

/-- dashboard.tsx line 279:
`anomalies.filter((a) => a.severity === "critical" && a.status === "open").length`,
as a function of the anomaly list in scope. -/
def criticalCount (anomalies : List Anomaly) : Nat :=
  (anomalies.filter (fun a =>
    decide (a.severity = "critical") && decide (a.status = "open"))).length

/-- dashboard.tsx lines 622-626 (inside `AnomaliesPage`): the filter keeps an
anomaly unless a non-"all" severity filter mismatches its severity, or a
non-"all" service filter mismatches its service. -/
def filteredAnomalies (severityFilter serviceFilter : String)
    (anomalies : List Anomaly) : List Anomaly :=
  anomalies.filter (fun a =>
    if decide (severityFilter ≠ "all") && decide (a.severity ≠ severityFilter) then false
    else if decide (serviceFilter ≠ "all") && decide (a.service ≠ serviceFilter) then false
    else true)

end Dashboard

/- ## Integrated dashboard transform, from integrated-dashboard.tsx
     (src/unnamed/part_000 lines 341-351) -/

/-- The optional metric values carried by a backend `AnomalyResult`
(cpu_usage, memory_usage, latency_p95, error_rate); each may be absent.
Numbers are embedded as rationals. -/
structure MetricValues where
  cpu_usage : Option ℚ
  memory_usage : Option ℚ
  latency_p95 : Option ℚ
  error_rate : Option ℚ
deriving DecidableEq, Repr

/-- The backend anomaly shape consumed by `transformAnomalies`.  The
`severity` field is optional (in TypeScript it may be undefined or an empty
string, both falsy). -/
structure AnomalyResult where
  service_name : String
  timestamp : String
  severity : Option String
  anomaly_score : ℚ
  metric_values : MetricValues
deriving DecidableEq, Repr

/-- `anomaly.metric_values.x?.toFixed(d) || 'N/A'`: format the metric value
when present, otherwise the literal `N/A`.  The JavaScript number formatter
`toFixed` is passed in as a parameter of the embedding. -/
def optFixed (toFixed : ℚ → Nat → String) (v : Option ℚ) (d : Nat) : String :=
  match v with
  | none => "N/A"
  | some x => toFixed x d

/-- The body of the arrow function inside `transformAnomalies`
(part_000 lines 342-350), applied to one backend anomaly.  The environment
functions of the browser are parameters: `genId` stands for the
`Date.now()`/`Math.random()` id source (indexed by position in the list),
`toLocaleString` for date rendering and `toFixed` for number formatting. -/
def transformAnomaly (genId : Nat → String) (toLocaleString : String → String)
    (toFixed : ℚ → Nat → String) (i : Nat) (anomaly : AnomalyResult) :
    Dashboard.Anomaly :=
  { id := "ANM-" ++ genId i
    service := anomaly.service_name
    detectedAt := toLocaleString anomaly.timestamp
    severity := match anomaly.severity with
      | none => "medium"
      | some s => if s = "" then "medium" else s
    summary := "Anomaly detected - Score: " ++ toFixed anomaly.anomaly_score 2
    status := "open"
    rootCause := some ("Metrics: CPU " ++ optFixed toFixed anomaly.metric_values.cpu_usage 1 ++
      "%, Memory " ++ optFixed toFixed anomaly.metric_values.memory_usage 1 ++
      "%, Latency " ++ optFixed toFixed anomaly.metric_values.latency_p95 0 ++
      "ms, Error Rate " ++ optFixed toFixed anomaly.metric_values.error_rate 2 ++ "%") }

/-- Element-wise traversal of the backend list, threading the position used
to determinise the id source. -/
def transformGo (genId : Nat → String) (toLocaleString : String → String)
    (toFixed : ℚ → Nat → String) : Nat → List AnomalyResult → List Dashboard.Anomaly
  | _, [] => []
  | i, a :: rest =>
    transformAnomaly genId toLocaleString toFixed i a ::
      transformGo genId toLocaleString toFixed (i + 1) rest

/-- `transformAnomalies` of integrated-dashboard.tsx (part_000 lines 341-351):
`backendAnomalies.map(anomaly => ({...}))`. -/
def transformAnomalies (genId : Nat → String) (toLocaleString : String → String)
    (toFixed : ℚ → Nat → String) (backendAnomalies : List AnomalyResult) :
    List Dashboard.Anomaly :=
  transformGo genId toLocaleString toFixed 0 backendAnomalies

/- ## Auto-remediation core, modelled from the spec.
     The dispatcher, ledger, executors, policy engine and notifier are present
     in the repository only as documentation (README_INTEGRATION, the Slack
     library README, architecture.md and the spec); no implementation file is
     under src/, so each definition below is modelled from the spec text. -/

/-- Modelled from the spec: severity levels of an AnomalyEvent (spec section 3);
the action-engine implementation is missing from the source. -/
inductive Severity
  | critical
  | high
  | medium
  | low
deriving DecidableEq, Fintype, Repr

/-- Modelled from the spec: the two backend platforms of a ServiceTarget
(cluster-orchestrator or serverless, spec section 3); the registry
implementation is missing from the source. -/
inductive Platform
  | clusterOrchestrator
  | serverless
deriving DecidableEq, Fintype, Repr

/-- Modelled from the spec: the three remediation action types
(spec section 3, ActionRequest). -/
inductive ActionType
  | restart
  | scale
  | rolloutRestart
deriving DecidableEq, Fintype, Repr

/-- Modelled from the spec: how an action was triggered (spec section 3). -/
inductive TriggeredBy
  | auto
  | manual
deriving DecidableEq, Fintype, Repr

/-- Modelled from the spec: lifecycle status of an ActionRecord
(spec section 3: pending, running, succeeded, failed). -/
inductive Status
  | pending
  | running
  | succeeded
  | failed
deriving DecidableEq, Fintype, Repr

/-- A status is terminal when it is succeeded or failed (spec section 3). -/
def Status.isTerminal : Status → Bool
  | .succeeded => true
  | .failed => true
  | _ => false

/-- Modelled from the spec: the single allowed status transitions
(spec section 3: pending to running, running to succeeded or failed,
never reversed). -/
def statusStep : Status → Status → Bool
  | .pending, .running => true
  | .running, .succeeded => true
  | .running, .failed => true
  | _, _ => false

/-- The monotonic order generated by statusStep: a status may only stay or
advance along pending, running, then one terminal state. -/
def Status.le : Status → Status → Bool
  | .pending, _ => true
  | .running, .pending => false
  | .running, _ => true
  | .succeeded, .succeeded => true
  | .succeeded, _ => false
  | .failed, .failed => true
  | .failed, _ => false

/-- Modelled from the spec: ServiceTarget (spec section 3); the registry
configuration source is missing from src/. -/
structure ServiceTarget where
  service_name : String
  platform : Platform
  cluster_or_region : String
  nspace : Option String
deriving DecidableEq, Repr

/-- Modelled from the spec: ActionRequest (spec section 3) with its
action-specific parameters (replicas for a fixed count, min and max for
autoscaled targets). -/
structure ActionRequest where
  service_name : String
  action_type : ActionType
  reason : String
  triggered_by : TriggeredBy
  replicas : Option Int
  min_replicas : Option Int
  max_replicas : Option Int
deriving DecidableEq, Repr

/-- Modelled from the spec: ActionRecord, the ledger unit of truth
(spec section 3).  created_at is a logical timestamp. -/
structure ActionRecord where
  action_id : Nat
  service_name : String
  action_type : ActionType
  reason : String
  triggered_by : TriggeredBy
  replicas : Option Int
  min_replicas : Option Int
  max_replicas : Option Int
  status : Status
  created_at : Nat
  result_message : String
  completed_at : Option Nat
  attempt_count : Nat
deriving DecidableEq, Repr

/-- Modelled from the spec: the Action Ledger state (spec section 4.4), an
append-only record list plus the next fresh action id. -/
structure Ledger where
  records : List ActionRecord
  nextId : Nat
deriving DecidableEq, Repr

/-- The empty ledger at process start. -/
def Ledger.init : Ledger :=
  { records := [], nextId := 0 }

/-- A record is a live lock holder for key (s, t) when it has that key and a
non-terminal status (spec section 3: the lock is the existence of a
non-terminal ActionRecord for the key). -/
def nonTerminalKey (s : String) (t : ActionType) (r : ActionRecord) : Bool :=
  decide (r.service_name = s) && decide (r.action_type = t) && !r.status.isTerminal

/-- Modelled from the spec: the lock for (service, action type) is held when a
non-terminal record with that key exists (spec sections 3 and 4.4). -/
def lockHeld (L : Ledger) (s : String) (t : ActionType) : Bool :=
  L.records.any (nonTerminalKey s t)

/-- Number of in-flight (non-terminal) records for a key. -/
def inflightCount (L : Ledger) (s : String) (t : ActionType) : Nat :=
  L.records.countP (nonTerminalKey s t)

/-- Modelled from the spec: dispatcher error taxonomy (spec section 7). -/
inductive DispatchError
  | validationError (msg : String)
  | conflictError
  | unsupportedOperationError
deriving DecidableEq, Repr

/-- Modelled from the spec: the dispatcher configuration; maxReplicas is the
configured replica ceiling of spec section 4.2 step 1. -/
structure DispatcherConfig where
  maxReplicas : Int
deriving DecidableEq, Repr

/-- Modelled from the spec: registry lookup of a service name
(spec section 3, ServiceTarget is looked up by name). -/
def resolveTarget (reg : List ServiceTarget) (name : String) : Option ServiceTarget :=
  reg.find? (fun t => decide (t.service_name = name))

/-- Modelled from the spec: request validation (spec section 4.2 step 1,
section 4.3 parameter shapes, section 7).  The target must resolve in the
registry; rolloutRestart on a serverless target is an
UnsupportedOperationError rejected at validation; scale requires the
parameter shape of the resolved platform, with replica counts at least 0 and
at most the configured ceiling. -/
def validateRequest (cfg : DispatcherConfig) (reg : List ServiceTarget)
    (req : ActionRequest) : Except DispatchError ServiceTarget :=
  match resolveTarget reg req.service_name with
  | none => .error (.validationError "target does not resolve")
  | some tgt =>
    if req.action_type = ActionType.rolloutRestart ∧ tgt.platform = Platform.serverless then
      .error .unsupportedOperationError
    else if req.action_type = ActionType.scale then
      match tgt.platform with
      | .clusterOrchestrator =>
        match req.replicas with
        | none => .error (.validationError "replicas missing")
        | some n =>
          if n < 0 ∨ cfg.maxReplicas < n then
            .error (.validationError "replicas out of bounds")
          else .ok tgt
      | .serverless =>
        match req.min_replicas, req.max_replicas with
        | some lo, some hi =>
          if lo < 0 ∨ hi < lo ∨ cfg.maxReplicas < hi then
            .error (.validationError "autoscale bounds out of range")
          else .ok tgt
        | _, _ => .error (.validationError "autoscale bounds missing")
    else .ok tgt

/-- Modelled from the spec: the synchronous part of dispatch
(spec section 4.2 steps 1 and 2): validate, then atomically tryAcquire the
per-key lock and insert a pending record; a held lock is a ConflictError and
the request is rejected, not queued.  The asynchronous executor phase is
modelled by the transition steps of the ledger. -/
def dispatch (cfg : DispatcherConfig) (reg : List ServiceTarget)
    (req : ActionRequest) (L : Ledger) : Except DispatchError ActionRecord × Ledger :=
  match validateRequest cfg reg req with
  | .error e => (.error e, L)
  | .ok _tgt =>
    if lockHeld L req.service_name req.action_type then
      (.error .conflictError, L)
    else
      let r : ActionRecord :=
        { action_id := L.nextId
          service_name := req.service_name
          action_type := req.action_type
          reason := req.reason
          triggered_by := req.triggered_by
          replicas := req.replicas
          min_replicas := req.min_replicas
          max_replicas := req.max_replicas
          status := .pending
          created_at := L.nextId
          result_message := ""
          completed_at := none
          attempt_count := 0 }
      (.ok r, { records := r :: L.records, nextId := L.nextId + 1 })

/-- Modelled from the spec: the ledger transition operation
(spec section 4.4, transition of action_id to a new status with a message),
guarded by the monotonic status discipline of spec section 3; a transition
that is not a legal advance leaves the record unchanged.  Reaching a
terminal state stamps completed_at with the supplied logical time. -/
def Ledger.transition (L : Ledger) (id : Nat) (new : Status) (msg : String)
    (now : Nat) : Ledger :=
  { L with
    records := L.records.map (fun r =>
      if r.action_id = id ∧ statusStep r.status new = true then
        { r with
          status := new
          result_message := msg
          completed_at := if new.isTerminal then some now else r.completed_at }
      else r) }

/-- Modelled from the spec: the operations that mutate the shared ledger
(spec section 5: all mutation goes through the atomic acquire and transition
operations).  A step is either a dispatch call or a status transition. -/
inductive Step : Ledger → Ledger → Prop
  | dispatchStep (cfg : DispatcherConfig) (reg : List ServiceTarget)
      (req : ActionRequest) (L : Ledger) : Step L (dispatch cfg reg req L).2
  | transitionStep (id : Nat) (new : Status) (msg : String) (now : Nat)
      (L : Ledger) : Step L (L.transition id new msg now)

/-- A ledger state reachable from the empty ledger by dispatch and
transition steps. -/
def Reachable (L : Ledger) : Prop :=
  Relation.ReflTransGen Step Ledger.init L

/- ## Policy engine, executors and notifier, modelled from the spec -/

/-- Modelled from the spec: AnomalyEvent (spec section 3); the anomaly scorer
is external and its implementation is missing from src/. -/
structure AnomalyEvent where
  service_name : String
  metric_name : String
  anomaly_score : ℚ
  severity : Severity
  expected_value : ℚ
  actual_value : ℚ
  detected_at : Nat
deriving DecidableEq, Repr

/-- Modelled from the spec: the Policy Engine decision type
(spec section 4.1: Ignore, AutoAct or RequireApproval). -/
inductive Decision
  | ignore
  | autoAct (req : ActionRequest)
  | requireApproval (req : ActionRequest)
deriving DecidableEq, Repr

/-- Modelled from the spec: the policy configuration of spec section 4.1 -- a
per-severity table mapping severity to a default action type, and the global
require-approval-for-critical flag. -/
structure PolicyConfig where
  severity_table : List (Severity × ActionType)
  require_approval_for_critical : Bool
deriving DecidableEq, Repr

/-- The ActionRequest the policy engine derives from an event and the mapped
default action type (spec section 4.1 and data flow of section 2). -/
def defaultRequest (e : AnomalyEvent) (act : ActionType) : ActionRequest :=
  { service_name := e.service_name
    action_type := act
    reason := "auto-remediation for " ++ e.metric_name
    triggered_by := .auto
    replicas := none
    min_replicas := none
    max_replicas := none }

/-- Modelled from the spec: the Policy Engine evaluate function
(spec section 4.1).  A severity missing from the configured table is
Ignored; the require-approval-for-critical flag forces RequireApproval for
critical events regardless of the mapping; otherwise the mapped action is
auto-acted. -/
def evaluate (cfg : PolicyConfig) (e : AnomalyEvent) : Decision :=
  match cfg.severity_table.find? (fun p => decide (p.1 = e.severity)) with
  | none => .ignore
  | some p =>
    if cfg.require_approval_for_critical ∧ e.severity = Severity.critical then
      .requireApproval (defaultRequest e p.2)
    else
      .autoAct (defaultRequest e p.2)

/-- Modelled from the spec: the executor Result shape (spec section 4.3). -/
structure Result where
  success : Bool
  message : String
deriving DecidableEq, Repr

/-- Modelled from the spec: the orchestration backend state seen by a Target
Executor, a restart generation per service name; restarting a target bumps
its generation (a rolling replacement or a new revision rollout). -/
structure OrchestratorState where
  generations : List (String × Nat)
deriving DecidableEq, Repr

/-- Bump the restart generation of one service. -/
def bumpGen (st : OrchestratorState) (name : String) : OrchestratorState :=
  match st.generations.find? (fun p => decide (p.1 = name)) with
  | none => { generations := (name, 1) :: st.generations }
  | some _ =>
    { generations := st.generations.map (fun p =>
        if p.1 = name then (p.1, p.2 + 1) else p) }

/-- Modelled from the spec: the restart operation of both executor variants
(spec section 4.3): the cluster variant forces a rolling replacement of all
instances, the serverless variant forces a new revision rollout; both are
idempotent at the orchestration-API level and report success even on a
target that was already restarted. -/
def restartExec (p : Platform) (st : OrchestratorState) (tgt : ServiceTarget)
    (reason : String) : Result × OrchestratorState :=
  match p with
  | .clusterOrchestrator =>
    ({ success := true
       message := "rolling replacement of all instances of " ++ tgt.service_name ++
         " (" ++ reason ++ ")" }, bumpGen st tgt.service_name)
  | .serverless =>
    ({ success := true
       message := "new revision rollout for " ++ tgt.service_name ++
         " (" ++ reason ++ ")" }, bumpGen st tgt.service_name)

/-- Modelled from the spec: rolloutRestart (spec section 4.3), supported by
the cluster-orchestrator variant only; the serverless variant yields an
UnsupportedOperationError. -/
def rolloutRestartExec (p : Platform) (st : OrchestratorState)
    (tgt : ServiceTarget) (reason : String) :
    Except DispatchError (Result × OrchestratorState) :=
  match p with
  | .clusterOrchestrator =>
    .ok ({ success := true
           message := "zero-downtime sequential replacement of " ++ tgt.service_name ++
             " (" ++ reason ++ ")" }, bumpGen st tgt.service_name)
  | .serverless => .error .unsupportedOperationError

/-- Modelled from the spec: notification configuration (spec section 4.5 and
the Slack library README): an enabled flag and an optional webhook URL. -/
structure NotifyConfig where
  enabled : Bool
  webhook_url : Option String
deriving DecidableEq, Repr

/-- Modelled from the spec: the outcome of one delivery attempt over the
network, an input of the embedding (delivered, timeout, or transport
error). -/
inductive TransportOutcome
  | delivered
  | timeout
  | transportError
deriving DecidableEq, Fintype, Repr

/-- Modelled from the spec: the notification payload variants of spec
section 4.5 and the Slack library README (incident, action and health-alert
records). -/
inductive NotifyPayload
  | incident (incident_id service_name severity title description : String)
  | action (action_id service_name : String) (action_type : ActionType)
      (status reason : String)
  | healthAlert (service_name status message : String)
deriving DecidableEq, Repr

/-- Modelled from the spec: notify (spec section 4.5 and the Slack library
README error handling): returns false when notifications are disabled, when
no webhook URL is configured, and on timeout or transport error; returns
true only on a delivered attempt; it never raises. -/
def notify (cfg : NotifyConfig) (outcome : TransportOutcome)
    (_payload : NotifyPayload) : Bool :=
  if !cfg.enabled then false
  else
    match cfg.webhook_url with
    | none => false
    | some _ =>
      match outcome with
      | .delivered => true
      | .timeout => false
      | .transportError => false

/-- Modelled from the spec: step 4-6 of dispatch (spec section 4.2): record
the terminal outcome of an action in the ledger, then emit a best-effort
notification whose failure is logged, not propagated. -/
def completeAndNotify (ncfg : NotifyConfig) (outcome : TransportOutcome)
    (L : Ledger) (id : Nat) (final : Status) (msg : String) (now : Nat)
    (p : NotifyPayload) : Ledger × Bool :=
  (L.transition id final msg now, notify ncfg outcome p)

/- ## Status-order facts -/

theorem statusStep_nonterminal :
    ∀ a b : Status, statusStep a b = true → a.isTerminal = false := by decide

theorem statusStep_imp_le :
    ∀ a b : Status, statusStep a b = true → Status.le a b = true := by decide

theorem status_le_refl : ∀ a : Status, Status.le a a = true := by decide

theorem status_le_trans :
    ∀ a b c : Status, Status.le a b = true → Status.le b c = true →
      Status.le a c = true := by decide

theorem terminal_no_step :
    ∀ a b : Status, a.isTerminal = true → statusStep a b = false := by decide

/- ## Single-flight machinery -/

theorem countP_map_le {α : Type} (p : α → Bool) (f : α → α)
    (hf : ∀ a, p (f a) = true → p a = true) :
    ∀ l : List α, (l.map f).countP p ≤ l.countP p := by
  intro l
  induction l with
  | nil => simp
  | cons a t ih =>
    simp only [List.map_cons, List.countP_cons]
    have h1 : (if p (f a) = true then 1 else 0) ≤ (if p a = true then (1 : Nat) else 0) := by
      by_cases h : p (f a) = true
      · simp [h, hf a h]
      · simp [h]
    omega

theorem transition_inflight_le (L : Ledger) (id : Nat) (new : Status)
    (msg : String) (now : Nat) (s : String) (t : ActionType) :
    inflightCount (L.transition id new msg now) s t ≤ inflightCount L s t := by
  unfold inflightCount Ledger.transition
  apply countP_map_le
  intro r hr
  by_cases hc : r.action_id = id ∧ statusStep r.status new = true
  · rw [if_pos hc] at hr
    unfold nonTerminalKey at hr ⊢
    simp only [Bool.and_eq_true, decide_eq_true_eq, Bool.not_eq_true'] at hr ⊢
    exact ⟨hr.1, statusStep_nonterminal r.status new hc.2⟩
  · rw [if_neg hc] at hr
    exact hr

theorem dispatch_ok_shape (cfg : DispatcherConfig) (reg : List ServiceTarget)
    (req : ActionRequest) (L : Ledger) (r : ActionRecord) (L2 : Ledger)
    (h : dispatch cfg reg req L = (Except.ok r, L2)) :
    L2 = { records := r :: L.records, nextId := L.nextId + 1 } ∧
    r.service_name = req.service_name ∧ r.action_type = req.action_type ∧
    r.status = Status.pending ∧
    lockHeld L req.service_name req.action_type = false := by
  unfold dispatch at h
  cases hv : validateRequest cfg reg req with
  | error e => rw [hv] at h; simp at h
  | ok tgt =>
    rw [hv] at h
    by_cases hl : lockHeld L req.service_name req.action_type = true
    · rw [if_pos hl] at h
      simp at h
    · rw [if_neg hl] at h
      simp only [Prod.mk.injEq, Except.ok.injEq] at h
      obtain ⟨h1, h2⟩ := h
      subst h1
      refine ⟨h2.symm, rfl, rfl, rfl, ?_⟩
      revert hl
      cases lockHeld L req.service_name req.action_type <;> simp

theorem step_inflight (L L2 : Ledger) (h : Step L L2)
    (hInv : ∀ s t, inflightCount L s t ≤ 1) :
    ∀ s t, inflightCount L2 s t ≤ 1 := by
  cases h with
  | transitionStep id new msg now L =>
    intro s t
    exact le_trans (transition_inflight_le L id new msg now s t) (hInv s t)
  | dispatchStep cfg reg req L =>
    intro s t
    unfold dispatch
    cases hv : validateRequest cfg reg req with
    | error e => simpa using hInv s t
    | ok tgt =>
      by_cases hl : lockHeld L req.service_name req.action_type = true
      · rw [if_pos hl]
        exact hInv s t
      · rw [if_neg hl]
        simp only [inflightCount, List.countP_cons]
        by_cases hk : req.service_name = s ∧ req.action_type = t
        · obtain ⟨hk1, hk2⟩ := hk
          subst hk1
          subst hk2
          have h0 : L.records.countP (nonTerminalKey req.service_name req.action_type) = 0 := by
            rw [List.countP_eq_zero]
            intro r hr hpr
            exact hl (by
              unfold lockHeld
              rw [List.any_eq_true]
              exact ⟨r, hr, hpr⟩)
          rw [h0]
          simp [nonTerminalKey, Status.isTerminal]
        · have hlit : nonTerminalKey s t
              { action_id := L.nextId
                service_name := req.service_name
                action_type := req.action_type
                reason := req.reason
                triggered_by := req.triggered_by
                replicas := req.replicas
                min_replicas := req.min_replicas
                max_replicas := req.max_replicas
                status := .pending
                created_at := L.nextId
                result_message := ""
                completed_at := none
                attempt_count := 0 } = false := by
            unfold nonTerminalKey
            by_cases h1 : req.service_name = s <;> by_cases h2 : req.action_type = t
            · exact absurd ⟨h1, h2⟩ hk
            · simp [h1, h2]
            · simp [h1, h2]
            · simp [h1, h2]
          rw [hlit]
          simpa using hInv s t

theorem reachable_inflight :
    ∀ L, Reachable L → ∀ s t, inflightCount L s t ≤ 1 := by
  intro L h
  unfold Reachable at h
  induction h with
  | refl =>
    intro s t
    simp [inflightCount, Ledger.init]
  | tail hsteps hstep ih => exact step_inflight _ _ hstep ih

/- ## Record monotonicity machinery -/

theorem step_record_mono (L L2 : Ledger) (h : Step L L2) :
    ∀ r ∈ L.records, ∃ q ∈ L2.records,
      q.action_id = r.action_id ∧ Status.le r.status q.status = true ∧
      (r.status.isTerminal = true → q.status = r.status) := by
  cases h with
  | dispatchStep cfg reg req L =>
    intro r hr
    refine ⟨r, ?_, rfl, status_le_refl r.status, fun _ => rfl⟩
    unfold dispatch
    cases hv : validateRequest cfg reg req with
    | error e => simpa using hr
    | ok tgt =>
      by_cases hl : lockHeld L req.service_name req.action_type = true
      · rw [if_pos hl]
        exact hr
      · rw [if_neg hl]
        exact List.mem_cons_of_mem _ hr
  | transitionStep id new msg now L =>
    intro r hr
    unfold Ledger.transition
    by_cases hc : r.action_id = id ∧ statusStep r.status new = true
    · refine ⟨{ r with
          status := new
          result_message := msg
          completed_at := if new.isTerminal then some now else r.completed_at },
        List.mem_map.mpr ⟨r, hr, if_pos hc⟩, rfl,
        statusStep_imp_le r.status new hc.2, ?_⟩
      intro hterm
      have h1 := terminal_no_step r.status new hterm
      rw [h1] at hc
      exact absurd hc.2 (by simp)
    · exact ⟨r, List.mem_map.mpr ⟨r, hr, if_neg hc⟩, rfl, status_le_refl r.status,
        fun _ => rfl⟩

/- ## Sample inputs used by the closed witnesses -/

/-- A cluster-orchestrator target, the payment-api example of the spec. -/
def sampleTarget : ServiceTarget :=
  { service_name := "payment-api"
    platform := .clusterOrchestrator
    cluster_or_region := "prod-cluster"
    nspace := some "default" }

/-- A serverless target, the user-auth example of the spec. -/
def sampleServerlessTarget : ServiceTarget :=
  { service_name := "user-auth"
    platform := .serverless
    cluster_or_region := "us-central1"
    nspace := none }

/-- A manual restart request for payment-api. -/
def sampleRestartReq : ActionRequest :=
  { service_name := "payment-api"
    action_type := .restart
    reason := "High CPU usage detected"
    triggered_by := .manual
    replicas := none
    min_replicas := none
    max_replicas := none }

/-- A rollout-restart request aimed at the serverless target. -/
def sampleRolloutReq : ActionRequest :=
  { service_name := "user-auth"
    action_type := .rolloutRestart
    reason := "Config update"
    triggered_by := .manual
    replicas := none
    min_replicas := none
    max_replicas := none }

/-- A scale request with the replicas parameter missing. -/
def sampleScaleMissing : ActionRequest :=
  { service_name := "payment-api"
    action_type := .scale
    reason := "Traffic surge"
    triggered_by := .manual
    replicas := none
    min_replicas := none
    max_replicas := none }

/-- A scale request with a negative replica count. -/
def sampleScaleNeg : ActionRequest :=
  { service_name := "payment-api"
    action_type := .scale
    reason := "Traffic surge"
    triggered_by := .manual
    replicas := some (-1)
    min_replicas := none
    max_replicas := none }

/-- The pending record created by dispatching sampleRestartReq on the empty
ledger. -/
def sampleRecord0 : ActionRecord :=
  { action_id := 0
    service_name := "payment-api"
    action_type := .restart
    reason := "High CPU usage detected"
    triggered_by := .manual
    replicas := none
    min_replicas := none
    max_replicas := none
    status := .pending
    created_at := 0
    result_message := ""
    completed_at := none
    attempt_count := 0 }

/-- The ledger after that first dispatch. -/
def sampleLedger1 : Ledger :=
  { records := [sampleRecord0], nextId := 1 }

/- ## Claim theorems for the auto-remediation core -/

/-- C1: single-flight.  In every reachable ledger state at most one
non-terminal (pending or running) ActionRecord exists per
(service_name, action_type) key, and after a dispatch call has acquired the
lock by inserting its record, a second dispatch call for the same key that
passes validation fails with ConflictError and leaves the ledger
unchanged. -/
theorem single_flight :
    (∀ L, Reachable L → ∀ s t, inflightCount L s t ≤ 1) ∧
    (∀ cfg reg req req2 L r L2,
        dispatch cfg reg req L = (Except.ok r, L2) →
        req2.service_name = req.service_name →
        req2.action_type = req.action_type →
        (∃ tgt, validateRequest cfg reg req2 = Except.ok tgt) →
        dispatch cfg reg req2 L2 = (Except.error DispatchError.conflictError, L2)) := by
  constructor
  · exact reachable_inflight
  · intro cfg reg req req2 L r L2 hd hsn hat hval
    obtain ⟨tgt2, hv2⟩ := hval
    obtain ⟨hL2, hrsn, hrat, hrstat, -⟩ := dispatch_ok_shape cfg reg req L r L2 hd
    have hlock : lockHeld L2 req2.service_name req2.action_type = true := by
      rw [hL2]
      unfold lockHeld
      rw [List.any_eq_true]
      refine ⟨r, List.mem_cons_self _ _, ?_⟩
      unfold nonTerminalKey
      simp [hrsn, hrat, hsn, hat, hrstat, Status.isTerminal]
    unfold dispatch
    rw [hv2, if_pos hlock]

/-- Closed instance of single_flight: dispatching the same restart request
twice in a row from the empty ledger makes the second call fail with
ConflictError without changing the ledger. -/
theorem single_flight_witness :
    inflightCount sampleLedger1 "payment-api" ActionType.restart ≤ 1 ∧
    dispatch ⟨10⟩ [sampleTarget] sampleRestartReq sampleLedger1 =
      (Except.error DispatchError.conflictError, sampleLedger1) := by
  constructor
  · apply single_flight.1 sampleLedger1
    have h1 : Step Ledger.init (dispatch ⟨10⟩ [sampleTarget] sampleRestartReq Ledger.init).2 :=
      Step.dispatchStep ⟨10⟩ [sampleTarget] sampleRestartReq Ledger.init
    have h2 : (dispatch ⟨10⟩ [sampleTarget] sampleRestartReq Ledger.init).2 = sampleLedger1 := by
      rfl
    exact Relation.ReflTransGen.single (h2 ▸ h1)
  · exact single_flight.2 ⟨10⟩ [sampleTarget] sampleRestartReq sampleRestartReq
      Ledger.init sampleRecord0 sampleLedger1 rfl rfl rfl ⟨sampleTarget, rfl⟩

/-- C2: monotonic status.  Across any sequence of ledger operations every
record keeps its action_id and its status only advances along the order
pending, running, terminal; a record in a terminal state never changes
status again. -/
theorem monotonic_status :
    ∀ L L2, Relation.ReflTransGen Step L L2 →
      ∀ r ∈ L.records, ∃ q ∈ L2.records,
        q.action_id = r.action_id ∧ Status.le r.status q.status = true ∧
        (r.status.isTerminal = true → q.status = r.status) := by
  intro L L2 h
  induction h with
  | refl =>
    intro r hr
    exact ⟨r, hr, rfl, status_le_refl r.status, fun _ => rfl⟩
  | tail hsteps hstep ih =>
    intro r hr
    obtain ⟨q, hq, hid, hle, hterm⟩ := ih r hr
    obtain ⟨q2, hq2, hid2, hle2, hterm2⟩ := step_record_mono _ _ hstep q hq
    refine ⟨q2, hq2, hid2.trans hid, status_le_trans _ _ _ hle hle2, ?_⟩
    intro ht
    have h1 : q.status = r.status := hterm ht
    have h2 : q.status.isTerminal = true := by rw [h1]; exact ht
    rw [hterm2 h2, h1]

/-- Closed instance of monotonic_status at the one-record ledger. -/
theorem monotonic_status_witness :
    ∃ q ∈ sampleLedger1.records,
      q.action_id = sampleRecord0.action_id ∧
      Status.le sampleRecord0.status q.status = true ∧
      (sampleRecord0.status.isTerminal = true → q.status = sampleRecord0.status) :=
  monotonic_status sampleLedger1 sampleLedger1 Relation.ReflTransGen.refl
    sampleRecord0 (by simp [sampleLedger1])

/-- C3: validation completeness and atomicity.  Any validation error makes
dispatch fail with that error and leave the ledger untouched, and in
particular an unresolved target, a scale request with the replica count
missing, and a scale request with a negative or above-ceiling replica count
are validation errors. -/
theorem validation_completeness :
    (∀ cfg reg req L e, validateRequest cfg reg req = Except.error e →
        dispatch cfg reg req L = (Except.error e, L)) ∧
    (∀ cfg reg req, resolveTarget reg req.service_name = none →
        validateRequest cfg reg req =
          Except.error (DispatchError.validationError "target does not resolve")) ∧
    (∀ cfg reg req tgt, req.action_type = ActionType.scale →
        resolveTarget reg req.service_name = some tgt →
        tgt.platform = Platform.clusterOrchestrator →
        req.replicas = none →
        validateRequest cfg reg req =
          Except.error (DispatchError.validationError "replicas missing")) ∧
    (∀ cfg reg req tgt n, req.action_type = ActionType.scale →
        resolveTarget reg req.service_name = some tgt →
        tgt.platform = Platform.clusterOrchestrator →
        req.replicas = some n → (n < 0 ∨ cfg.maxReplicas < n) →
        validateRequest cfg reg req =
          Except.error (DispatchError.validationError "replicas out of bounds")) := by
  refine ⟨?_, ?_, ?_, ?_⟩
  · intro cfg reg req L e h
    unfold dispatch
    rw [h]
  · intro cfg reg req h
    unfold validateRequest
    rw [h]
  · intro cfg reg req tgt hat hres hplat hrep
    unfold validateRequest
    rw [hres]
    simp [hat, hplat, hrep]
  · intro cfg reg req tgt n hat hres hplat hrep hb
    unfold validateRequest
    rw [hres]
    simp [hat, hplat, hrep, hb]

/-- Closed instance of validation_completeness: an unresolved target, a
missing replica count and a negative replica count each fail validation, the
first leaving the ledger unchanged through dispatch. -/
theorem validation_completeness_witness :
    dispatch ⟨10⟩ [] sampleRestartReq Ledger.init =
      (Except.error (DispatchError.validationError "target does not resolve"),
        Ledger.init) ∧
    validateRequest ⟨10⟩ [sampleTarget] sampleScaleMissing =
      Except.error (DispatchError.validationError "replicas missing") ∧
    validateRequest ⟨10⟩ [sampleTarget] sampleScaleNeg =
      Except.error (DispatchError.validationError "replicas out of bounds") := by
  refine ⟨?_, ?_, ?_⟩
  · exact validation_completeness.1 ⟨10⟩ [] sampleRestartReq Ledger.init _
      (validation_completeness.2.1 ⟨10⟩ [] sampleRestartReq rfl)
  · exact validation_completeness.2.2.1 ⟨10⟩ [sampleTarget] sampleScaleMissing
      sampleTarget rfl rfl rfl rfl
  · exact validation_completeness.2.2.2 ⟨10⟩ [sampleTarget] sampleScaleNeg
      sampleTarget (-1) rfl rfl rfl rfl (Or.inl (by norm_num))

/-- A policy mapping critical to restart and high to scale, with approval
required for critical. -/
def samplePolicy : PolicyConfig :=
  { severity_table := [(.critical, .restart), (.high, .scale)]
    require_approval_for_critical := true }

/-- The critical payment-api anomaly of spec scenario A. -/
def sampleEvent : AnomalyEvent :=
  { service_name := "payment-api"
    metric_name := "cpu_usage"
    anomaly_score := 95 / 100
    severity := .critical
    expected_value := 50
    actual_value := 92
    detected_at := 0 }

/-- C4: policy determinism.  The evaluate function of the Policy Engine is a
pure function of the event and the policy configuration: equal inputs give
equal decisions, and there is no state for it to affect. -/
theorem policy_determinism :
    ∀ (cfg1 cfg2 : PolicyConfig) (e1 e2 : AnomalyEvent),
      cfg1 = cfg2 → e1 = e2 → evaluate cfg1 e1 = evaluate cfg2 e2 := by
  intro cfg1 cfg2 e1 e2 h1 h2
  rw [h1, h2]

/-- Closed instance of policy_determinism at the sample policy and event. -/
theorem policy_determinism_witness :
    evaluate samplePolicy sampleEvent = evaluate samplePolicy sampleEvent :=
  policy_determinism samplePolicy samplePolicy sampleEvent sampleEvent rfl rfl

/-- C5: executor idempotence.  For every executor variant and every target,
restart succeeds and restarting the already-restarted target succeeds again,
and likewise for rolloutRestart on the cluster-orchestrator variant:
repetition is a no-op success, never an error. -/
theorem executor_idempotent :
    ∀ (p : Platform) (st : OrchestratorState) (tgt : ServiceTarget) (reason : String),
      (restartExec p st tgt reason).1.success = true ∧
      (restartExec p (restartExec p st tgt reason).2 tgt reason).1.success = true ∧
      ∃ r1 s1, rolloutRestartExec Platform.clusterOrchestrator st tgt reason =
          Except.ok (r1, s1) ∧ r1.success = true ∧
        ∃ r2 s2, rolloutRestartExec Platform.clusterOrchestrator s1 tgt reason =
            Except.ok (r2, s2) ∧ r2.success = true := by
  intro p st tgt reason
  refine ⟨?_, ?_, ?_⟩
  · cases p <;> rfl
  · cases p <;> rfl
  · exact ⟨_, _, rfl, rfl, _, _, rfl, rfl⟩

/-- C6: platform capability restriction.  A rolloutRestart request whose
resolved target is serverless is rejected by dispatch at validation with
UnsupportedOperationError, leaving the ledger unchanged, while for a
cluster-orchestrator target the same request passes validation. -/
theorem rollout_platform_restriction :
    (∀ cfg reg req L tgt,
        req.action_type = ActionType.rolloutRestart →
        resolveTarget reg req.service_name = some tgt →
        tgt.platform = Platform.serverless →
        dispatch cfg reg req L =
          (Except.error DispatchError.unsupportedOperationError, L)) ∧
    (∀ cfg reg req tgt,
        req.action_type = ActionType.rolloutRestart →
        resolveTarget reg req.service_name = some tgt →
        tgt.platform = Platform.clusterOrchestrator →
        validateRequest cfg reg req = Except.ok tgt) := by
  constructor
  · intro cfg reg req L tgt hat hres hplat
    have hv : validateRequest cfg reg req =
        Except.error DispatchError.unsupportedOperationError := by
      unfold validateRequest
      rw [hres]
      simp [hat, hplat]
    unfold dispatch
    rw [hv]
  · intro cfg reg req tgt hat hres hplat
    unfold validateRequest
    rw [hres]
    simp [hat, hplat]

/-- Closed instance of rollout_platform_restriction: rollout restart on the
serverless user-auth target fails with UnsupportedOperationError and no
ledger entry, while on the cluster payment-api target it validates. -/
theorem rollout_platform_restriction_witness :
    dispatch ⟨10⟩ [sampleServerlessTarget] sampleRolloutReq Ledger.init =
      (Except.error DispatchError.unsupportedOperationError, Ledger.init) ∧
    validateRequest ⟨10⟩ [sampleTarget]
        { sampleRolloutReq with service_name := "payment-api" } =
      Except.ok sampleTarget := by
  constructor
  · exact rollout_platform_restriction.1 ⟨10⟩ [sampleServerlessTarget]
      sampleRolloutReq Ledger.init sampleServerlessTarget rfl rfl rfl
  · exact rollout_platform_restriction.2 ⟨10⟩ [sampleTarget]
      { sampleRolloutReq with service_name := "payment-api" } sampleTarget rfl rfl rfl

/-- A disabled notification configuration. -/
def sampleNotifyOff : NotifyConfig :=
  { enabled := false, webhook_url := none }

/-- An enabled notification configuration with a webhook URL. -/
def sampleNotifyOn : NotifyConfig :=
  { enabled := true, webhook_url := some "https://hooks.slack.com/services/T/B/X" }

/-- A sample health-alert payload. -/
def samplePayload : NotifyPayload :=
  .healthAlert "inventory-svc" "degraded" "Response time increased by 50%"

/-- C7: notification totality.  notify returns false, rather than raising,
for every payload under each failure mode (disabled configuration, missing
webhook, timeout, transport error), and the recorded ledger state produced
by completing an action does not depend on the notification outcome. -/
theorem notification_totality :
    (∀ (cfg : NotifyConfig) (o : TransportOutcome) (p : NotifyPayload),
        cfg.enabled = false → notify cfg o p = false) ∧
    (∀ (cfg : NotifyConfig) (p : NotifyPayload),
        notify cfg TransportOutcome.timeout p = false) ∧
    (∀ (cfg : NotifyConfig) (p : NotifyPayload),
        notify cfg TransportOutcome.transportError p = false) ∧
    (∀ (ncfg : NotifyConfig) (o1 o2 : TransportOutcome) (L : Ledger)
        (id : Nat) (final : Status) (msg : String) (now : Nat) (p : NotifyPayload),
        (completeAndNotify ncfg o1 L id final msg now p).1 =
          (completeAndNotify ncfg o2 L id final msg now p).1) := by
  refine ⟨?_, ?_, ?_, ?_⟩
  · intro cfg o p h
    simp [notify, h]
  · intro cfg p
    rcases cfg with ⟨en, wh⟩
    cases en <;> cases wh <;> rfl
  · intro cfg p
    rcases cfg with ⟨en, wh⟩
    cases en <;> cases wh <;> rfl
  · intro ncfg o1 o2 L id final msg now p
    rfl

/-- Closed instance of notification_totality at the sample configurations,
including independence of the recorded state from the delivery outcome. -/
theorem notification_totality_witness :
    notify sampleNotifyOff TransportOutcome.delivered samplePayload = false ∧
    notify sampleNotifyOn TransportOutcome.timeout samplePayload = false ∧
    notify sampleNotifyOn TransportOutcome.transportError samplePayload = false ∧
    (completeAndNotify sampleNotifyOn TransportOutcome.delivered sampleLedger1 0
        Status.running "started" 1 samplePayload).1 =
      (completeAndNotify sampleNotifyOn TransportOutcome.timeout sampleLedger1 0
        Status.running "started" 1 samplePayload).1 :=
  ⟨notification_totality.1 sampleNotifyOff TransportOutcome.delivered samplePayload rfl,
   notification_totality.2.1 sampleNotifyOn samplePayload,
   notification_totality.2.2.1 sampleNotifyOn samplePayload,
   notification_totality.2.2.2 sampleNotifyOn TransportOutcome.delivered
     TransportOutcome.timeout sampleLedger1 0 Status.running "started" 1 samplePayload⟩

/- ## Theorems about the dashboard code -/

theorem transformGo_length (g : Nat → String) (tl : String → String)
    (tf : ℚ → Nat → String) :
    ∀ (k : Nat) (l : List AnomalyResult), (transformGo g tl tf k l).length = l.length := by
  intro k l
  induction l generalizing k with
  | nil => rfl
  | cons a rest ih => simp [transformGo, ih]

theorem transformGo_severity (g : Nat → String) (tl : String → String)
    (tf : ℚ → Nat → String) :
    ∀ (k i : Nat) (l : List AnomalyResult),
      ((transformGo g tl tf k l)[i]?).map (fun a => a.severity) =
        (l[i]?).map (fun a =>
          match a.severity with
          | none => "medium"
          | some s => if s = "" then "medium" else s) := by
  intro k i l
  induction l generalizing k i with
  | nil => simp [transformGo]
  | cons a rest ih =>
    cases i with
    | zero => cases h : a.severity <;> simp [transformGo, transformAnomaly, h]
    | succ j =>
      simp only [transformGo, List.getElem?_cons_succ]
      exact ih (k + 1) j

/-- C8: the critical-anomaly count of the Dashboard notification badge counts
exactly the anomalies whose severity is critical and whose status is open;
in particular a resolved critical anomaly does not contribute. -/
theorem criticalCount_spec :
    (∀ l : List Dashboard.Anomaly,
        Dashboard.criticalCount l =
          l.countP (fun a => decide (a.severity = "critical" ∧ a.status = "open"))) ∧
    (∀ (a : Dashboard.Anomaly) (l : List Dashboard.Anomaly),
        a.severity = "critical" → a.status = "resolved" →
        Dashboard.criticalCount (a :: l) = Dashboard.criticalCount l) := by
  constructor
  · intro l
    unfold Dashboard.criticalCount
    rw [← List.countP_eq_length_filter]
    have hp : (fun (a : Dashboard.Anomaly) =>
        decide (a.severity = "critical") && decide (a.status = "open")) =
        fun a => decide (a.severity = "critical" ∧ a.status = "open") := by
      funext a
      by_cases h1 : a.severity = "critical" <;> by_cases h2 : a.status = "open" <;>
        simp [h1, h2]
    rw [hp]
  · intro a l h1 h2
    simp [Dashboard.criticalCount, List.filter_cons, h1, h2]

/-- Closed instance of criticalCount_spec: a resolved critical anomaly is not
counted. -/
theorem criticalCount_spec_witness :
    Dashboard.criticalCount
        [{ id := "ANM-003", service := "inventory-svc",
           detectedAt := "2025-11-27 12:30:00", severity := "critical",
           summary := "Memory usage trending above threshold",
           status := "resolved", rootCause := none }] =
      Dashboard.criticalCount ([] : List Dashboard.Anomaly) :=
  criticalCount_spec.2 _ [] rfl rfl

/-- C9: transformAnomalies maps the backend list element-wise, keeping the
length, and the resulting severity is medium exactly when the backend
severity is absent or empty, otherwise the backend severity. -/
theorem transformAnomalies_spec :
    (∀ (genId : Nat → String) (toLocaleString : String → String)
        (toFixed : ℚ → Nat → String) (l : List AnomalyResult),
        (transformAnomalies genId toLocaleString toFixed l).length = l.length) ∧
    (∀ (genId : Nat → String) (toLocaleString : String → String)
        (toFixed : ℚ → Nat → String) (l : List AnomalyResult) (i : Nat),
        ((transformAnomalies genId toLocaleString toFixed l)[i]?).map
            (fun a => a.severity) =
          (l[i]?).map (fun a =>
            match a.severity with
            | none => "medium"
            | some s => if s = "" then "medium" else s)) := by
  constructor
  · intro g tl tf l
    exact transformGo_length g tl tf 0 l
  · intro g tl tf l i
    exact transformGo_severity g tl tf 0 i l

/-- C10: the anomaly filter of AnomaliesPage keeps exactly the anomalies that
match both the severity and the service filter, where the value all matches
everything; with both filters at all the list is returned unchanged. -/
theorem filteredAnomalies_spec :
    (∀ (sev svc : String) (l : List Dashboard.Anomaly),
        Dashboard.filteredAnomalies sev svc l =
          l.filter (fun a =>
            decide ((sev = "all" ∨ a.severity = sev) ∧
              (svc = "all" ∨ a.service = svc)))) ∧
    (∀ (sev svc : String) (l : List Dashboard.Anomaly) (a : Dashboard.Anomaly),
        a ∈ Dashboard.filteredAnomalies sev svc l ↔
          a ∈ l ∧ (sev = "all" ∨ a.severity = sev) ∧ (svc = "all" ∨ a.service = svc)) ∧
    (∀ l : List Dashboard.Anomaly, Dashboard.filteredAnomalies "all" "all" l = l) := by
  have key : ∀ (sev svc : String) (l : List Dashboard.Anomaly),
      Dashboard.filteredAnomalies sev svc l =
        l.filter (fun a =>
          decide ((sev = "all" ∨ a.severity = sev) ∧ (svc = "all" ∨ a.service = svc))) := by
    intro sev svc l
    unfold Dashboard.filteredAnomalies
    apply List.filter_congr
    intro a _
    by_cases h1 : sev = "all" <;> by_cases h2 : a.severity = sev <;>
      by_cases h3 : svc = "all" <;> by_cases h4 : a.service = svc <;>
      simp [h1, h2, h3, h4]
  refine ⟨key, ?_, ?_⟩
  · intro sev svc l a
    rw [key]
    simp [List.mem_filter]
  · intro l
    rw [key]
    simp

end AiOps
